import Mathlib

/-!
Shallow embedding of the token-bridge-relayer Solana program
(src/solana/programs/token_bridge_relayer/src/lib.rs) and proofs of the
specification claims about it.

Account data is modelled as plain Lean structures; public keys as natural
numbers (the all-zero key is 0); instruction handlers as total functions
returning `Except Err α`, mirroring the program's `Result<()>` together
with the host ledger's atomic rollback (an `error` result carries no
effects and leaves all state unchanged).  Arithmetic is modelled on `Nat`;
the program's checked arithmetic returns `Option`.

Helper logic that lives in the repository outside `src/` (the `state`,
`error`, `context` modules) or in external collaborator crates (the
bridge SDK's amount normalization) is modelled from the spec, and each
such definition's doc comment says so.
-/

deriving instance DecidableEq for Except

namespace TokenBridgeRelayer

/-- Public keys are modelled as natural numbers; `Pubkey::default()` (the
all-zero key) is `0`. -/
abbrev Pubkey := Nat

/-- The default (all-zero) public key. -/
def PUBKEY_DEFAULT : Pubkey := 0

/-- Error conditions of the program (`TokenBridgeRelayerError` in the
`error` module, whose variants are named at each `require!` site in
`lib.rs`; `OwnerOnly` models the Anchor account-constraint failure that
rejects a non-owner signer on owner-only instructions, per the spec's
owner-only predicate in section 4.1). -/
inductive Err
  | InvalidPublicKey
  | AlreadyTheOwner
  | NotPendingOwner
  | OwnerOnly
  | OwnerOrAssistantOnly
  | TokenAlreadyRegistered
  | ZeroSwapRate
  | SwapsNotAllowedForNativeMint
  | TokenNotRegistered
  | OutboundTransfersPaused
  | InvalidRecipient
  | ZeroBridgeAmount
  | InvalidToNativeAmount
  | FeeCalculationError
  | InsufficientFunds
  | NativeMintRequired
  | AlreadyRedeemed
  | InvalidSwapCalculation
  | InvalidForeignContract
  deriving DecidableEq

/-- `SenderConfig` account: owner, paused flag and the two precisions
(the bridge-endpoint pubkeys it also stores play no role in the claims). -/
structure SenderConfig where
  owner : Pubkey
  paused : Bool
  relayer_fee_precision : Nat
  swap_rate_precision : Nat
  deriving DecidableEq

/-- `RedeemerConfig` account: owner, fee recipient and the two precisions. -/
structure RedeemerConfig where
  owner : Pubkey
  fee_recipient : Pubkey
  relayer_fee_precision : Nat
  swap_rate_precision : Nat
  deriving DecidableEq

/-- `OwnerConfig` account: owner, assistant and the optional pending owner. -/
structure OwnerConfig where
  owner : Pubkey
  assistant : Pubkey
  pending_owner : Option Pubkey
  deriving DecidableEq

/-- `RegisteredToken` account. -/
structure RegisteredToken where
  swap_rate : Nat
  max_native_swap_amount : Nat
  is_registered : Bool
  deriving DecidableEq

/-- Modelled from the spec: an actor is authorized iff it equals the owner
or the assistant (section 4.1 authorization predicate; implemented in the
`state` module, not under `src/`). -/
def OwnerConfig.is_authorized (c : OwnerConfig) (k : Pubkey) : Bool :=
  k == c.owner || k == c.assistant

/-- Modelled from the spec: `confirm` is only callable by the address equal
to `pending_owner` (section 4.2; implemented in the `state` module, not
under `src/`). -/
def OwnerConfig.is_pending_owner (c : OwnerConfig) (k : Pubkey) : Bool :=
  c.pending_owner == some k

/-- Modelled from the spec: the messaging-bridge collaborator's amount
normalization scales an amount to a fixed 8-decimal representation,
dividing away any decimals beyond 8 (sections 4.4 and glossary; the
function itself lives in the external bridge SDK). -/
def normalize_amount (amount decimals : Nat) : Nat :=
  if 8 < decimals then amount / 10 ^ (decimals - 8) else amount

/-- Modelled from the spec: the inverse rescaling of `normalize_amount`,
restoring a wire amount to the destination token's native decimal count
(sections 4.4 and glossary; external bridge SDK). -/
def denormalize_amount (amount decimals : Nat) : Nat :=
  if 8 < decimals then amount * 10 ^ (decimals - 8) else amount

/-- Modelled from the spec: truncating an amount to the bridge's 8-decimal
cap, i.e. zeroing the residue that normalization would drop (section 4.5;
external bridge SDK). -/
def truncate_amount (amount decimals : Nat) : Nat :=
  if 8 < decimals then amount / 10 ^ (decimals - 8) * 10 ^ (decimals - 8)
  else amount

/-- The host chain's Wormhole chain identifier (spec section 8: chain id 1
is reserved for the host ledger). -/
def CHAIN_ID_SOLANA : Nat := 1

/-- Modelled from the spec: the bridge caps wire amounts at 8 decimals, so
bridge-created wrapped mints carry at most 8 decimals (sections 4.4, 4.5
and glossary); wrapped-mint amounts are therefore already normalized. -/
def wrappedMintDecimalsCap (d : Nat) : Prop := d ≤ 8

/-- Modelled from the spec: `token_fee` converts the per-chain flat
USD-scaled relayer fee into units of the transferred token using the
token's USD swap rate, with checked arithmetic failing (`none`) on a zero
denominator (section 4.3; implemented in the `state` module, not under
`src/`; the literal rounding is a documented modelling choice as the spec
leaves the exact formula open). -/
def checked_token_fee (fee decimals swap_rate swap_rate_precision
    relayer_fee_precision : Nat) : Option Nat :=
  if swap_rate = 0 ∨ relayer_fee_precision = 0 then none
  else some (fee * 10 ^ decimals * swap_rate_precision
    / (swap_rate * relayer_fee_precision))

/-- Modelled from the spec: `native_swap_split` converts a requested token
amount into native-asset units at the token-to-native USD rate ratio,
clamps the native amount at `max_native_swap_amount`, and recomputes the
token amount consumed to reflect only the native amount actually paid out
(section 4.3; implemented in the `state` module, not under `src/`; the
literal rounding is a documented modelling choice as the spec leaves the
exact formula open).  Native asset has 9 decimals. -/
def RegisteredToken.calculate_native_swap_amounts (rt : RegisteredToken)
    (decimals native_swap_rate swap_rate_precision
      to_native_token_amount : Nat) : Option (Nat × Nat) :=
  if native_swap_rate = 0 ∨ rt.swap_rate = 0 ∨ swap_rate_precision = 0 then
    none
  else
    let native_amount_out := min
      (to_native_token_amount * rt.swap_rate * 10 ^ 9
        / (native_swap_rate * 10 ^ decimals))
      rt.max_native_swap_amount
    let token_amount_in := native_amount_out * native_swap_rate
      * 10 ^ decimals / (rt.swap_rate * 10 ^ 9)
    some (token_amount_in, native_amount_out)

/-- `register_token` handler: rejects an already-registered record, a zero
swap rate, and a nonzero `max_native_swap_amount` for the native mint,
then writes the fully-registered record. -/
def register_token (rt : RegisteredToken) (mint_is_native : Bool)
    (swap_rate max_native_swap_amount : Nat) :
    Except Err RegisteredToken :=
  if rt.is_registered then .error .TokenAlreadyRegistered
  else if swap_rate = 0 then .error .ZeroSwapRate
  else if mint_is_native ∧ max_native_swap_amount ≠ 0 then
    .error .SwapsNotAllowedForNativeMint
  else .ok { swap_rate := swap_rate,
             max_native_swap_amount := max_native_swap_amount,
             is_registered := true }

/-- `deregister_token` handler: requires a currently-registered record
(rejecting with `TokenAlreadyRegistered`, the variant named at its
`require!` site) and resets the record to the fully-deregistered state. -/
def deregister_token (rt : RegisteredToken) : Except Err RegisteredToken :=
  if rt.is_registered then
    .ok { swap_rate := 0, max_native_swap_amount := 0,
          is_registered := false }
  else .error .TokenAlreadyRegistered

/-- `update_swap_rate` handler: owner-or-assistant only, token must be
registered, new rate must be nonzero. -/
def update_swap_rate (oc : OwnerConfig) (payer : Pubkey)
    (rt : RegisteredToken) (swap_rate : Nat) : Except Err RegisteredToken :=
  if oc.is_authorized payer = false then .error .OwnerOrAssistantOnly
  else if rt.is_registered = false then .error .TokenNotRegistered
  else if swap_rate = 0 then .error .ZeroSwapRate
  else .ok { rt with swap_rate := swap_rate }

/-- `update_max_native_swap_amount` handler: token must be registered and
the native mint's limit must stay zero. -/
def update_max_native_swap_amount (rt : RegisteredToken)
    (mint_is_native : Bool) (max_native_swap_amount : Nat) :
    Except Err RegisteredToken :=
  if rt.is_registered = false then .error .TokenNotRegistered
  else if mint_is_native ∧ max_native_swap_amount ≠ 0 then
    .error .SwapsNotAllowedForNativeMint
  else .ok { rt with max_native_swap_amount := max_native_swap_amount }

/-- `set_pause_for_transfers` handler: writes the paused flag on the
sender config. -/
def set_pause_for_transfers (c : SenderConfig) (paused : Bool) :
    SenderConfig :=
  { c with paused := paused }

/-- One operation on a `RegisteredToken` record, carrying the
instruction's arguments (and, for `setSwapRate`, the owner config and
signer that gate it). -/
inductive TokenOp
  | register (mint_is_native : Bool) (swap_rate max_native_swap_amount : Nat)
  | deregister
  | setSwapRate (oc : OwnerConfig) (payer : Pubkey) (swap_rate : Nat)
  | setMaxNative (mint_is_native : Bool) (max_native_swap_amount : Nat)

/-- Apply one token operation; a failing instruction rolls back, leaving
the record unchanged (host-ledger atomicity, spec section 5). -/
def applyTokenOp (op : TokenOp) (rt : RegisteredToken) : RegisteredToken :=
  match op with
  | .register n sr mx =>
    match register_token rt n sr mx with
    | .ok rt2 => rt2
    | .error _ => rt
  | .deregister =>
    match deregister_token rt with
    | .ok rt2 => rt2
    | .error _ => rt
  | .setSwapRate oc payer sr =>
    match update_swap_rate oc payer rt sr with
    | .ok rt2 => rt2
    | .error _ => rt
  | .setMaxNative n mx =>
    match update_max_native_swap_amount rt n mx with
    | .ok rt2 => rt2
    | .error _ => rt

/-- Apply a sequence of token operations in order. -/
def applyTokenOps (ops : List TokenOp) (rt : RegisteredToken) :
    RegisteredToken :=
  ops.foldl (fun s op => applyTokenOp op s) rt

/-- Registration well-formedness: a token is either fully registered
(positive swap rate) or fully deregistered (zero rate and zero limit). -/
def RegisteredTokenWf (rt : RegisteredToken) : Prop :=
  (rt.is_registered = true → 0 < rt.swap_rate) ∧
  (rt.is_registered = false →
    rt.swap_rate = 0 ∧ rt.max_native_swap_amount = 0)

instance instDecidableRegisteredTokenWf (rt : RegisteredToken) :
    Decidable (RegisteredTokenWf rt) := by
  unfold RegisteredTokenWf
  infer_instance

/-- A token operation addressed to the native mint's record: its
`mint_is_native` argument is `true` (trivially so for the mint-independent
operations). -/
def TokenOp.forNativeMint : TokenOp → Prop
  | .register n _ _ => n = true
  | .deregister => True
  | .setSwapRate _ _ _ => True
  | .setMaxNative n _ => n = true

/-- The three singleton configuration accounts touched by the ownership
handshake. -/
structure ProgState where
  sender_config : SenderConfig
  redeemer_config : RedeemerConfig
  owner_config : OwnerConfig
  deriving DecidableEq

/-- `submit_ownership_transfer_request` handler.  The leading owner-only
check is modelled from the spec (section 4.1; enforced by an Anchor
account constraint in the `context` module, not under `src/`); the
zero-key and already-the-owner checks are the handler's own
`require_keys_neq!` checks. -/
def submit_ownership_transfer_request (s : ProgState)
    (payer new_owner : Pubkey) : Except Err ProgState :=
  if payer ≠ s.owner_config.owner then .error .OwnerOnly
  else if new_owner = PUBKEY_DEFAULT then .error .InvalidPublicKey
  else if new_owner = s.owner_config.owner then .error .AlreadyTheOwner
  else .ok { s with owner_config :=
    { s.owner_config with pending_owner := some new_owner } }

/-- `confirm_ownership_transfer_request` handler: requires the signer to
be the pending owner, then writes the new owner to all three configs and
clears `pending_owner` (the source unwraps the pending owner after the
check; the unreachable `none` branch of the total model re-raises
`NotPendingOwner`). -/
def confirm_ownership_transfer_request (s : ProgState) (payer : Pubkey) :
    Except Err ProgState :=
  if s.owner_config.is_pending_owner payer = false then
    .error .NotPendingOwner
  else
    match s.owner_config.pending_owner with
    | none => .error .NotPendingOwner
    | some pending =>
      .ok { sender_config := { s.sender_config with owner := pending },
            redeemer_config := { s.redeemer_config with owner := pending },
            owner_config :=
              { s.owner_config with
                owner := pending, pending_owner := none } }

/-- `cancel_ownership_transfer_request` handler.  The owner-only check is
modelled from the spec (section 4.2; Anchor account constraint in the
`context` module, not under `src/`); the handler body just clears
`pending_owner`. -/
def cancel_ownership_transfer_request (s : ProgState) (payer : Pubkey) :
    Except Err ProgState :=
  if payer ≠ s.owner_config.owner then .error .OwnerOnly
  else .ok { s with owner_config :=
    { s.owner_config with pending_owner := none } }

/-- All bytes of a recipient address are zero. -/
def all_zero (address : List Nat) : Bool :=
  address.all (fun b => b == 0)

/-- Accounts and arguments read by `send_native_tokens_with_payload`. -/
structure SendNativeInput where
  config : SenderConfig
  registered_token : RegisteredToken
  relayer_fee : Nat
  mint_decimals : Nat
  mint_is_native : Bool
  amount : Nat
  to_native_token_amount : Nat
  recipient_chain : Nat
  recipient_address : List Nat
  wrap_native : Bool
  deriving DecidableEq

/-- Accounts and arguments read by `send_wrapped_tokens_with_payload`. -/
structure SendWrappedInput where
  config : SenderConfig
  registered_token : RegisteredToken
  relayer_fee : Nat
  wrapped_mint_decimals : Nat
  amount : Nat
  to_native_token_amount : Nat
  recipient_chain : Nat
  recipient_address : List Nat
  deriving DecidableEq

/-- What a successful send hands to the bridge: the encoded
`TransferWithRelay` payload fields and the bridged principal. -/
structure SendOutcome where
  target_relayer_fee : Nat
  to_native_token_amount : Nat
  recipient : List Nat
  bridged_amount : Nat
  deriving DecidableEq

/-- `send_native_tokens_with_payload` handler: the check sequence and the
payload construction of the source, in source order (the fund staging,
delegation and bridge call between the last check and the payload are
collaborator calls whose arguments the outcome records). -/
def send_native_tokens_with_payload (i : SendNativeInput) :
    Except Err SendOutcome :=
  if i.config.paused then .error .OutboundTransfersPaused
  else if i.registered_token.is_registered = false then
    .error .TokenNotRegistered
  else if ¬ (CHAIN_ID_SOLANA < i.recipient_chain ∧
      all_zero i.recipient_address = false) then
    .error .InvalidRecipient
  else
    let truncated_amount := truncate_amount i.amount i.mint_decimals
    if truncated_amount = 0 then .error .ZeroBridgeAmount
    else
      let normalized_to_native_amount :=
        normalize_amount i.to_native_token_amount i.mint_decimals
      if ¬ (i.to_native_token_amount = 0 ∨
          0 < normalized_to_native_amount) then
        .error .InvalidToNativeAmount
      else
        match checked_token_fee i.relayer_fee i.mint_decimals
            i.registered_token.swap_rate i.config.swap_rate_precision
            i.config.relayer_fee_precision with
        | none => .error .FeeCalculationError
        | some token_fee =>
          let normalized_relayer_fee :=
            normalize_amount token_fee i.mint_decimals
          let normalized_amount := normalize_amount i.amount i.mint_decimals
          if ¬ (normalized_to_native_amount + normalized_relayer_fee
              < normalized_amount) then
            .error .InsufficientFunds
          else if i.wrap_native = true ∧ i.mint_is_native = false then
            .error .NativeMintRequired
          else
            .ok { target_relayer_fee := normalized_relayer_fee,
                  to_native_token_amount := normalized_to_native_amount,
                  recipient := i.recipient_address,
                  bridged_amount := truncated_amount }

/-- `send_wrapped_tokens_with_payload` handler: the check sequence and the
payload construction of the source, in source order; the payload carries
the raw `relayer_fee` and `to_native_token_amount` (no normalization call,
as the wrapped mint's decimals never exceed 8). -/
def send_wrapped_tokens_with_payload (i : SendWrappedInput) :
    Except Err SendOutcome :=
  if i.config.paused then .error .OutboundTransfersPaused
  else if i.amount = 0 then .error .ZeroBridgeAmount
  else if i.registered_token.is_registered = false then
    .error .TokenNotRegistered
  else if ¬ (CHAIN_ID_SOLANA < i.recipient_chain ∧
      all_zero i.recipient_address = false) then
    .error .InvalidRecipient
  else
    match checked_token_fee i.relayer_fee i.wrapped_mint_decimals
        i.registered_token.swap_rate i.config.swap_rate_precision
        i.config.relayer_fee_precision with
    | none => .error .FeeCalculationError
    | some relayer_fee =>
      if ¬ (i.to_native_token_amount + relayer_fee < i.amount) then
        .error .InsufficientFunds
      else
        .ok { target_relayer_fee := relayer_fee,
              to_native_token_amount := i.to_native_token_amount,
              recipient := i.recipient_address,
              bridged_amount := i.amount }

/-- One observable fund movement of a redemption, in execution order:
the bridge's complete-transfer into the transfer-scoped custody account,
closing the custody account to a destination, a lamport transfer, or an
SPL transfer out of custody. -/
inductive RedeemEffect
  | redeemToCustody (amount : Nat)
  | closeTmp (dest : Pubkey)
  | lamports (src dest amount : Nat)
  | tokenFromCustody (dest amount : Nat)
  deriving DecidableEq

/-- Accounts, message payload and arguments read by the two redeem
handlers.  `sender_config` is the deployment's sender configuration; it is
not among the accounts either redeem context reads, and is carried here
only so pause-independence of redemption is statable. -/
structure RedeemInput where
  claim_is_empty : Bool
  sender_config : SenderConfig
  config : RedeemerConfig
  registered_token : RegisteredToken
  native_swap_rate : Nat
  mint_decimals : Nat
  mint_is_native : Bool
  vaa_amount : Nat
  target_relayer_fee : Nat
  to_native_token_amount : Nat
  msg_recipient : Pubkey
  payer : Pubkey
  recipient : Pubkey
  recipient_token_account : Pubkey
  fee_recipient_token_account : Pubkey
  deriving DecidableEq

/-- `redeem_native_transfer_with_payload` handler: the source's check
sequence, denormalization, and branch structure (WSOL unwrap /
self-redemption / relayer-assisted), returning the ordered list of fund
movements a successful instruction performs. -/
def redeem_native_transfer_with_payload (i : RedeemInput) :
    Except Err (List RedeemEffect) :=
  if i.claim_is_empty = false then .error .AlreadyRedeemed
  else if i.registered_token.is_registered = false then
    .error .TokenNotRegistered
  else if ¬ (i.recipient = i.msg_recipient) then .error .InvalidRecipient
  else
    let amount := denormalize_amount i.vaa_amount i.mint_decimals
    let denormalized_relayer_fee :=
      denormalize_amount i.target_relayer_fee i.mint_decimals
    if i.mint_is_native then
      if i.payer ≠ i.recipient then
        .ok [.redeemToCustody amount, .closeTmp i.payer,
             .lamports i.payer i.recipient
               (amount - denormalized_relayer_fee)]
      else
        .ok [.redeemToCustody amount, .closeTmp i.payer]
    else
      if i.payer = i.recipient then
        .ok [.redeemToCustody amount,
             .tokenFromCustody i.recipient_token_account amount,
             .closeTmp i.payer]
      else
        let denormalized_to_native_token_amount :=
          denormalize_amount i.to_native_token_amount i.mint_decimals
        match i.registered_token.calculate_native_swap_amounts
            i.mint_decimals i.native_swap_rate i.config.swap_rate_precision
            denormalized_to_native_token_amount with
        | none => .error .InvalidSwapCalculation
        | some (token_amount_in, native_amount_out) =>
          let amount_for_fee_recipient :=
            token_amount_in + denormalized_relayer_fee
          .ok (.redeemToCustody amount ::
            ((if 0 < native_amount_out then
                [RedeemEffect.lamports i.payer i.recipient native_amount_out]
              else []) ++
             (if 0 < amount_for_fee_recipient then
                [RedeemEffect.tokenFromCustody i.fee_recipient_token_account
                  amount_for_fee_recipient]
              else []) ++
             [RedeemEffect.tokenFromCustody i.recipient_token_account
                (amount - amount_for_fee_recipient),
              RedeemEffect.closeTmp i.payer]))

/-- `redeem_wrapped_transfer_with_payload` handler: identical to the
native redeem except there is no WSOL-unwrap branch and the wrapped
mint's decimals are used. -/
def redeem_wrapped_transfer_with_payload (i : RedeemInput) :
    Except Err (List RedeemEffect) :=
  if i.claim_is_empty = false then .error .AlreadyRedeemed
  else if i.registered_token.is_registered = false then
    .error .TokenNotRegistered
  else if ¬ (i.recipient = i.msg_recipient) then .error .InvalidRecipient
  else
    let amount := denormalize_amount i.vaa_amount i.mint_decimals
    let denormalized_relayer_fee :=
      denormalize_amount i.target_relayer_fee i.mint_decimals
    if i.payer = i.recipient then
      .ok [.redeemToCustody amount,
           .tokenFromCustody i.recipient_token_account amount,
           .closeTmp i.payer]
    else
      let denormalized_to_native_token_amount :=
        denormalize_amount i.to_native_token_amount i.mint_decimals
      match i.registered_token.calculate_native_swap_amounts
          i.mint_decimals i.native_swap_rate i.config.swap_rate_precision
          denormalized_to_native_token_amount with
      | none => .error .InvalidSwapCalculation
      | some (token_amount_in, native_amount_out) =>
        let amount_for_fee_recipient :=
          token_amount_in + denormalized_relayer_fee
        .ok (.redeemToCustody amount ::
          ((if 0 < native_amount_out then
              [RedeemEffect.lamports i.payer i.recipient native_amount_out]
            else []) ++
           (if 0 < amount_for_fee_recipient then
              [RedeemEffect.tokenFromCustody i.fee_recipient_token_account
                amount_for_fee_recipient]
            else []) ++
           [RedeemEffect.tokenFromCustody i.recipient_token_account
              (amount - amount_for_fee_recipient),
            RedeemEffect.closeTmp i.payer]))

/-- Modelled from the spec: the bridge's complete-transfer primitive
creates a one-time claim record keyed by the attested message (section 6),
so after a successful redemption the claim account is no longer empty.
This step function pairs a redemption's effects with the resulting state
of that claim record. -/
def redeem_native_step (i : RedeemInput) :
    Except Err (List RedeemEffect × RedeemInput) :=
  match redeem_native_transfer_with_payload i with
  | .error e => .error e
  | .ok effects => .ok (effects, { i with claim_is_empty := false })

/-- Modelled from the spec: the wrapped-redeem analogue of
`redeem_native_step` (section 6 claim-record creation). -/
def redeem_wrapped_step (i : RedeemInput) :
    Except Err (List RedeemEffect × RedeemInput) :=
  match redeem_wrapped_transfer_with_payload i with
  | .error e => .error e
  | .ok effects => .ok (effects, { i with claim_is_empty := false })

/-! Concrete sample states used by the witness theorems. -/

/-- A sample owner configuration. -/
def sampleOwnerConfig : OwnerConfig :=
  { owner := 1, assistant := 2, pending_owner := none }

/-- The freshly-created, fully-deregistered token record. -/
def unregisteredToken : RegisteredToken :=
  { swap_rate := 0, max_native_swap_amount := 0, is_registered := false }

/-- A sample sender configuration with the initial precisions. -/
def sampleSenderConfig : SenderConfig :=
  { owner := 1, paused := false,
    relayer_fee_precision := 100000000, swap_rate_precision := 100000000 }

/-- A sample redeemer configuration with the initial precisions. -/
def sampleRedeemerConfig : RedeemerConfig :=
  { owner := 1, fee_recipient := 2,
    relayer_fee_precision := 100000000, swap_rate_precision := 100000000 }

/-- A sample registered token (the spec's section 8 example rate). -/
def sampleToken : RegisteredToken :=
  { swap_rate := 15000000, max_native_swap_amount := 1000000000,
    is_registered := true }

/-- A sample redemption input: claim still empty, registered token,
message recipient matching the recipient account, payer equal to the
recipient (self-redemption). -/
def sampleRedeemInput : RedeemInput :=
  { claim_is_empty := true,
    sender_config := sampleSenderConfig,
    config := sampleRedeemerConfig,
    registered_token := sampleToken,
    native_swap_rate := 2000000000,
    mint_decimals := 9,
    mint_is_native := false,
    vaa_amount := 50000000,
    target_relayer_fee := 100000,
    to_native_token_amount := 0,
    msg_recipient := 7,
    payer := 7,
    recipient := 7,
    recipient_token_account := 8,
    fee_recipient_token_account := 9 }

/-! Invariant preservation for `RegisteredToken` (claim C3). -/

/-- A record produced by a successful `register_token` is well-formed. -/
theorem register_token_ok_wf {rt : RegisteredToken} {n : Bool}
    {sr mx : Nat} {rt2 : RegisteredToken}
    (h : register_token rt n sr mx = .ok rt2) : RegisteredTokenWf rt2 := by
  unfold register_token at h
  split at h
  · exact Except.noConfusion h
  · split at h
    · exact Except.noConfusion h
    · split at h
      · exact Except.noConfusion h
      · cases h
        rename_i hsr _
        exact ⟨fun _ => Nat.pos_of_ne_zero hsr, fun hx => by simp at hx⟩

/-- A record produced by a successful `deregister_token` is well-formed. -/
theorem deregister_token_ok_wf {rt rt2 : RegisteredToken}
    (h : deregister_token rt = .ok rt2) : RegisteredTokenWf rt2 := by
  unfold deregister_token at h
  split at h
  · cases h
    exact ⟨fun hx => by simp at hx, fun _ => ⟨rfl, rfl⟩⟩
  · exact Except.noConfusion h

/-- A record produced by a successful `update_swap_rate` is well-formed. -/
theorem update_swap_rate_ok_wf {oc : OwnerConfig} {payer : Pubkey}
    {rt : RegisteredToken} {sr : Nat} {rt2 : RegisteredToken}
    (h : update_swap_rate oc payer rt sr = .ok rt2) :
    RegisteredTokenWf rt2 := by
  unfold update_swap_rate at h
  split at h
  · exact Except.noConfusion h
  · split at h
    · exact Except.noConfusion h
    · split at h
      · exact Except.noConfusion h
      · cases h
        rename_i hreg hsr
        refine ⟨fun _ => Nat.pos_of_ne_zero hsr, fun hx => ?_⟩
        simp only [Bool.not_eq_false] at hreg
        simp [hreg] at hx

/-- A record produced by a successful `update_max_native_swap_amount` on a
well-formed record is well-formed. -/
theorem update_max_native_swap_amount_ok_wf {rt : RegisteredToken}
    {n : Bool} {mx : Nat} {rt2 : RegisteredToken}
    (hwf : RegisteredTokenWf rt)
    (h : update_max_native_swap_amount rt n mx = .ok rt2) :
    RegisteredTokenWf rt2 := by
  unfold update_max_native_swap_amount at h
  split at h
  · exact Except.noConfusion h
  · split at h
    · exact Except.noConfusion h
    · cases h
      rename_i hreg _
      simp only [Bool.not_eq_false] at hreg
      refine ⟨fun _ => hwf.1 hreg, fun hx => ?_⟩
      simp [hreg] at hx

/-- Each single token operation preserves well-formedness (a failing
instruction rolls back). -/
theorem applyTokenOp_wf (op : TokenOp) (rt : RegisteredToken)
    (h : RegisteredTokenWf rt) : RegisteredTokenWf (applyTokenOp op rt) := by
  cases op with
  | register n sr mx =>
    cases hr : register_token rt n sr mx with
    | ok rt2 => simpa [applyTokenOp, hr] using register_token_ok_wf hr
    | error e => simpa [applyTokenOp, hr] using h
  | deregister =>
    cases hr : deregister_token rt with
    | ok rt2 => simpa [applyTokenOp, hr] using deregister_token_ok_wf hr
    | error e => simpa [applyTokenOp, hr] using h
  | setSwapRate oc payer sr =>
    cases hr : update_swap_rate oc payer rt sr with
    | ok rt2 => simpa [applyTokenOp, hr] using update_swap_rate_ok_wf hr
    | error e => simpa [applyTokenOp, hr] using h
  | setMaxNative n mx =>
    cases hr : update_max_native_swap_amount rt n mx with
    | ok rt2 =>
      simpa [applyTokenOp, hr] using update_max_native_swap_amount_ok_wf h hr
    | error e => simpa [applyTokenOp, hr] using h

/-- Well-formedness is preserved by arbitrary operation sequences. -/
theorem applyTokenOps_wf (ops : List TokenOp) (rt : RegisteredToken)
    (h : RegisteredTokenWf rt) : RegisteredTokenWf (applyTokenOps ops rt) := by
  induction ops generalizing rt with
  | nil => exact h
  | cons op ops ih =>
    exact ih (applyTokenOp op rt) (applyTokenOp_wf op rt h)

/-- C3: for every `RegisteredToken` record and every sequence of
`register_token`, `deregister_token`, `update_swap_rate` and
`update_max_native_swap_amount` operations, the registration invariant is
preserved — `is_registered = true` implies `swap_rate > 0`, and
`is_registered = false` implies `swap_rate = 0` and
`max_native_swap_amount = 0`; the freshly-created (all-zero) record also
satisfies it, so no partial registration state is reachable. -/
theorem registered_token_invariant_preserved (ops : List TokenOp)
    (rt : RegisteredToken) (h : RegisteredTokenWf rt) :
    RegisteredTokenWf (applyTokenOps ops rt) ∧
    RegisteredTokenWf
      { swap_rate := 0, max_native_swap_amount := 0,
        is_registered := false } := by
  refine ⟨applyTokenOps_wf ops rt h, ?_⟩
  exact ⟨fun hx => by simp at hx, fun _ => ⟨rfl, rfl⟩⟩

/-- Witness for C3 at a concrete record and operation sequence. -/
theorem registered_token_invariant_preserved_witness :
    RegisteredTokenWf (applyTokenOps
      [TokenOp.setMaxNative false 5, TokenOp.deregister,
       TokenOp.register false 15000000 1000000000,
       TokenOp.setSwapRate sampleOwnerConfig 2 30000000]
      sampleToken) :=
  (registered_token_invariant_preserved _ sampleToken (by decide)).1

/-! The native mint's swap limit (claim C7). -/

/-- A successful `register_token` with the native mint leaves the limit
at zero. -/
theorem register_token_ok_native_max {rt rt2 : RegisteredToken}
    {sr mx : Nat} (h : register_token rt true sr mx = .ok rt2) :
    rt2.max_native_swap_amount = 0 := by
  unfold register_token at h
  split at h
  · exact Except.noConfusion h
  · split at h
    · exact Except.noConfusion h
    · split at h
      · exact Except.noConfusion h
      · rename_i hguard
        cases h
        simpa using hguard

/-- A successful `update_max_native_swap_amount` with the native mint
leaves the limit at zero. -/
theorem update_max_native_ok_native_max {rt rt2 : RegisteredToken}
    {mx : Nat} (h : update_max_native_swap_amount rt true mx = .ok rt2) :
    rt2.max_native_swap_amount = 0 := by
  unfold update_max_native_swap_amount at h
  split at h
  · exact Except.noConfusion h
  · split at h
    · exact Except.noConfusion h
    · rename_i hguard
      cases h
      simpa using hguard

/-- One token operation addressed to the native mint cannot make the
limit nonzero. -/
theorem applyTokenOp_native_max_zero (op : TokenOp) (rt : RegisteredToken)
    (hop : op.forNativeMint) (h0 : rt.max_native_swap_amount = 0) :
    (applyTokenOp op rt).max_native_swap_amount = 0 := by
  cases op with
  | register n sr mx =>
    cases hop
    cases hr : register_token rt true sr mx with
    | ok rt2 => simpa [applyTokenOp, hr] using register_token_ok_native_max hr
    | error e => simpa [applyTokenOp, hr] using h0
  | deregister =>
    cases hr : deregister_token rt with
    | ok rt2 =>
      have : rt2.max_native_swap_amount = 0 := by
        unfold deregister_token at hr
        split at hr
        · cases hr
          rfl
        · exact Except.noConfusion hr
      simpa [applyTokenOp, hr] using this
    | error e => simpa [applyTokenOp, hr] using h0
  | setSwapRate oc payer sr =>
    cases hr : update_swap_rate oc payer rt sr with
    | ok rt2 =>
      have : rt2.max_native_swap_amount = 0 := by
        unfold update_swap_rate at hr
        split at hr
        · exact Except.noConfusion hr
        · split at hr
          · exact Except.noConfusion hr
          · split at hr
            · exact Except.noConfusion hr
            · cases hr
              exact h0
      simpa [applyTokenOp, hr] using this
    | error e => simpa [applyTokenOp, hr] using h0
  | setMaxNative n mx =>
    cases hop
    cases hr : update_max_native_swap_amount rt true mx with
    | ok rt2 =>
      simpa [applyTokenOp, hr] using update_max_native_ok_native_max hr
    | error e => simpa [applyTokenOp, hr] using h0

/-- C7 counterexample: with the native mint and a nonzero requested
`max_native_swap_amount`, `register_token` on an already-registered
record fails with `TokenAlreadyRegistered` and
`update_max_native_swap_amount` on an unregistered record fails with
`TokenNotRegistered` — in neither case with the claimed
`SwapsNotAllowedForNativeMint` condition. -/
theorem native_mint_error_code_counterexample :
    register_token sampleToken true 15000000 5
      = .error .TokenAlreadyRegistered ∧
    update_max_native_swap_amount unregisteredToken true 5
      = .error .TokenNotRegistered ∧
    Err.TokenAlreadyRegistered ≠ Err.SwapsNotAllowedForNativeMint ∧
    Err.TokenNotRegistered ≠ Err.SwapsNotAllowedForNativeMint := by
  decide

/-- C7 (amended): with the native mint and a nonzero requested
`max_native_swap_amount`, `register_token` and
`update_max_native_swap_amount` always fail — with
`SwapsNotAllowedForNativeMint` whenever the checks preceding the
native-mint check pass (for `register_token`: record unregistered and
swap rate nonzero; for `update_max_native_swap_amount`: record
registered) — and under any sequence of operations addressed to the
native mint its record's `max_native_swap_amount` stays zero. -/
theorem native_mint_max_swap_amount_stays_zero (rt : RegisteredToken)
    (sr mx : Nat) (ops : List TokenOp) :
    (rt.is_registered = false → sr ≠ 0 → mx ≠ 0 →
      register_token rt true sr mx
        = .error .SwapsNotAllowedForNativeMint) ∧
    (rt.is_registered = true → mx ≠ 0 →
      update_max_native_swap_amount rt true mx
        = .error .SwapsNotAllowedForNativeMint) ∧
    (mx ≠ 0 → ∀ o, register_token rt true sr mx ≠ .ok o) ∧
    (mx ≠ 0 → ∀ o, update_max_native_swap_amount rt true mx ≠ .ok o) ∧
    ((∀ op ∈ ops, op.forNativeMint) → rt.max_native_swap_amount = 0 →
      (applyTokenOps ops rt).max_native_swap_amount = 0) := by
  refine ⟨fun h1 h2 h3 => ?_, fun h1 h2 => ?_,
    fun hmx o hok => ?_, fun hmx o hok => ?_, fun hops h0 => ?_⟩
  · unfold register_token
    simp [h1, h2, h3]
  · unfold update_max_native_swap_amount
    simp [h1, h2]
  · have := register_token_ok_native_max hok
    unfold register_token at hok
    split at hok
    · exact Except.noConfusion hok
    · split at hok
      · exact Except.noConfusion hok
      · split at hok
        · exact Except.noConfusion hok
        · rename_i hguard
          exact hmx (by simpa using hguard)
  · unfold update_max_native_swap_amount at hok
    split at hok
    · exact Except.noConfusion hok
    · split at hok
      · exact Except.noConfusion hok
      · rename_i hguard
        exact hmx (by simpa using hguard)
  · induction ops generalizing rt with
    | nil => exact h0
    | cons op rest ih =>
      have hop := hops op (by simp)
      have hrest : ∀ op2 ∈ rest, op2.forNativeMint := by
        intro op2 hmem
        exact hops op2 (by simp [hmem])
      exact ih (applyTokenOp op rt) hrest
        (applyTokenOp_native_max_zero op rt hop h0)

/-- Witness for C7 at concrete records, requests and an operation
sequence addressed to the native mint. -/
theorem native_mint_max_swap_amount_stays_zero_witness :
    register_token unregisteredToken true 15000000 5
      = .error .SwapsNotAllowedForNativeMint ∧
    update_max_native_swap_amount sampleToken true 5
      = .error .SwapsNotAllowedForNativeMint ∧
    (applyTokenOps
      [TokenOp.register true 15000000 0, TokenOp.setMaxNative true 3]
      unregisteredToken).max_native_swap_amount = 0 :=
  ⟨(native_mint_max_swap_amount_stays_zero unregisteredToken
      15000000 5 []).1 (by decide) (by decide) (by decide),
   (native_mint_max_swap_amount_stays_zero sampleToken
      15000000 5 []).2.1 (by decide) (by decide),
   (native_mint_max_swap_amount_stays_zero unregisteredToken 15000000 5
      [TokenOp.register true 15000000 0, TokenOp.setMaxNative true 3]
      ).2.2.2.2
      (by
        intro op hmem
        rcases List.mem_cons.mp hmem with h | h
        · subst h
          exact rfl
        · rcases List.mem_cons.mp h with h2 | h2
          · subst h2
            exact rfl
          · cases h2)
      (by decide)⟩

/-! Deregistering an unregistered token (claim C9). -/

/-- C9: `deregister_token` on an unregistered record fails, leaves the
record unchanged, and reports `TokenAlreadyRegistered` — the same error
code `register_token` uses to reject an already-registered token — which
is distinct from the dedicated `TokenNotRegistered` condition. -/
theorem deregister_unregistered_fails_already_registered
    (rt rt2 : RegisteredToken) (n : Bool) (sr mx : Nat) :
    (rt.is_registered = false →
      deregister_token rt = .error .TokenAlreadyRegistered ∧
      applyTokenOp .deregister rt = rt) ∧
    (rt2.is_registered = true →
      register_token rt2 n sr mx = .error .TokenAlreadyRegistered) ∧
    Err.TokenAlreadyRegistered ≠ Err.TokenNotRegistered := by
  refine ⟨fun h => ?_, fun h2 => ?_, by decide⟩
  · have hd : deregister_token rt = .error .TokenAlreadyRegistered := by
      unfold deregister_token
      simp [h]
    exact ⟨hd, by unfold applyTokenOp; simp [hd]⟩
  · unfold register_token
    simp [h2]

/-- Witness for C9 at a concrete unregistered record (and a concrete
already-registered record for the `register_token` side). -/
theorem deregister_unregistered_fails_already_registered_witness :
    deregister_token
        { swap_rate := 0, max_native_swap_amount := 0,
          is_registered := false }
      = .error .TokenAlreadyRegistered ∧
    register_token sampleToken false 15000000 0
      = .error .TokenAlreadyRegistered :=
  ⟨((deregister_unregistered_fails_already_registered
      { swap_rate := 0, max_native_swap_amount := 0,
        is_registered := false }
      sampleToken false 15000000 0).1 (by decide)).1,
   (deregister_unregistered_fails_already_registered
      { swap_rate := 0, max_native_swap_amount := 0,
        is_registered := false }
      sampleToken false 15000000 0).2.1 (by decide)⟩

/-! The two-step ownership handshake (claim C5). -/

/-- A sample deployment state owned by key 1. -/
def sampleProgState : ProgState :=
  { sender_config := sampleSenderConfig,
    redeemer_config := sampleRedeemerConfig,
    owner_config := sampleOwnerConfig }

/-- The sample state after `submit_ownership_transfer_request` for new
owner 5. -/
def samplePendingState : ProgState :=
  { sampleProgState with owner_config :=
      { sampleOwnerConfig with pending_owner := some 5 } }

/-- The sample state after the new owner 5 confirms. -/
def sampleConfirmedState : ProgState :=
  { sender_config := { sampleSenderConfig with owner := 5 },
    redeemer_config := { sampleRedeemerConfig with owner := 5 },
    owner_config := { sampleOwnerConfig with owner := 5 } }

/-- C5: once `submit_ownership_transfer_request(new_owner)` has set the
pending owner, a confirmation signed by `new_owner` always succeeds; a
successful `confirm_ownership_transfer_request` sets the owner of the
sender, redeemer and owner configs all to exactly `new_owner` and resets
the pending owner to `none`, while a successful
`cancel_ownership_transfer_request` leaves all three owner fields
unchanged and resets the pending owner to `none`. -/
theorem ownership_handshake_confirm_cancel (s s1 s2 s3 : ProgState)
    (payer canceller new_owner : Pubkey)
    (hsub : submit_ownership_transfer_request s payer new_owner = .ok s1) :
    s1.owner_config.pending_owner = some new_owner ∧
    (∀ e, confirm_ownership_transfer_request s1 new_owner ≠ .error e) ∧
    (confirm_ownership_transfer_request s1 new_owner = .ok s2 →
      s2.sender_config.owner = new_owner ∧
      s2.redeemer_config.owner = new_owner ∧
      s2.owner_config.owner = new_owner ∧
      s2.owner_config.pending_owner = none) ∧
    (cancel_ownership_transfer_request s1 canceller = .ok s3 →
      s3.sender_config.owner = s.sender_config.owner ∧
      s3.redeemer_config.owner = s.redeemer_config.owner ∧
      s3.owner_config.owner = s.owner_config.owner ∧
      s3.owner_config.pending_owner = none) := by
  unfold submit_ownership_transfer_request at hsub
  split at hsub
  · exact Except.noConfusion hsub
  · split at hsub
    · exact Except.noConfusion hsub
    · split at hsub
      · exact Except.noConfusion hsub
      · cases hsub
        refine ⟨rfl, fun e hconf => ?_, fun hc => ?_, fun hx => ?_⟩
        · unfold confirm_ownership_transfer_request
            OwnerConfig.is_pending_owner at hconf
          simp at hconf
        · unfold confirm_ownership_transfer_request
            OwnerConfig.is_pending_owner at hc
          simp at hc
          subst hc
          exact ⟨rfl, rfl, rfl, rfl⟩
        · unfold cancel_ownership_transfer_request at hx
          split at hx
          · exact Except.noConfusion hx
          · cases hx
            exact ⟨rfl, rfl, rfl, rfl⟩

/-- Witness for C5 on the sample deployment: owner 1 submits new owner 5;
confirming as 5 yields the confirmed state, cancelling as 1 restores the
original owners with no pending owner. -/
theorem ownership_handshake_confirm_cancel_witness :
    samplePendingState.owner_config.pending_owner = some 5 ∧
    (sampleConfirmedState.sender_config.owner = 5 ∧
      sampleConfirmedState.redeemer_config.owner = 5 ∧
      sampleConfirmedState.owner_config.owner = 5 ∧
      sampleConfirmedState.owner_config.pending_owner = none) ∧
    (sampleProgState.sender_config.owner
        = sampleProgState.sender_config.owner ∧
      sampleProgState.redeemer_config.owner
        = sampleProgState.redeemer_config.owner ∧
      sampleProgState.owner_config.owner
        = sampleProgState.owner_config.owner ∧
      sampleProgState.owner_config.pending_owner = none) :=
  ⟨(ownership_handshake_confirm_cancel sampleProgState samplePendingState
      sampleConfirmedState sampleProgState 1 1 5 (by decide)).1,
   (ownership_handshake_confirm_cancel sampleProgState samplePendingState
      sampleConfirmedState sampleProgState 1 1 5 (by decide)).2.2.1
     (by decide),
   (ownership_handshake_confirm_cancel sampleProgState samplePendingState
      sampleConfirmedState sampleProgState 1 1 5 (by decide)).2.2.2
     (by decide)⟩

/-! Outbound sends: funds check and payload normalization
(claims C2 and C6). -/

/-- With at most 8 decimals, normalization is the identity. -/
theorem normalize_amount_of_le {amount decimals : Nat} (h : decimals ≤ 8) :
    normalize_amount amount decimals = amount := by
  unfold normalize_amount
  rw [if_neg]
  omega

/-- Everything a successful `send_native_tokens_with_payload` implies:
the fee computation succeeded, the payload carries the normalized fee,
normalized swap request and recipient, the bridged principal is the
truncated amount, and the normalized funds check held. -/
theorem send_native_ok_spec {i : SendNativeInput} {o : SendOutcome}
    (h : send_native_tokens_with_payload i = .ok o) :
    ∃ tf, checked_token_fee i.relayer_fee i.mint_decimals
        i.registered_token.swap_rate i.config.swap_rate_precision
        i.config.relayer_fee_precision = some tf ∧
      o.target_relayer_fee = normalize_amount tf i.mint_decimals ∧
      o.to_native_token_amount
        = normalize_amount i.to_native_token_amount i.mint_decimals ∧
      o.recipient = i.recipient_address ∧
      o.bridged_amount = truncate_amount i.amount i.mint_decimals ∧
      normalize_amount i.to_native_token_amount i.mint_decimals
        + normalize_amount tf i.mint_decimals
        < normalize_amount i.amount i.mint_decimals := by
  simp only [send_native_tokens_with_payload] at h
  split at h
  · exact Except.noConfusion h
  split at h
  · exact Except.noConfusion h
  split at h
  · exact Except.noConfusion h
  split at h
  · exact Except.noConfusion h
  split at h
  · exact Except.noConfusion h
  split at h
  · exact Except.noConfusion h
  rename_i tf hfee
  split at h
  · exact Except.noConfusion h
  split at h
  · exact Except.noConfusion h
  rename_i hineq _
  cases h
  exact ⟨tf, hfee, rfl, rfl, rfl, rfl, not_not.mp hineq⟩

/-- Everything a successful `send_wrapped_tokens_with_payload` implies:
the fee computation succeeded, the payload carries the raw fee, raw swap
request and recipient, the bridged principal is the full amount, and the
raw funds check held. -/
theorem send_wrapped_ok_spec {i : SendWrappedInput} {o : SendOutcome}
    (h : send_wrapped_tokens_with_payload i = .ok o) :
    ∃ tf, checked_token_fee i.relayer_fee i.wrapped_mint_decimals
        i.registered_token.swap_rate i.config.swap_rate_precision
        i.config.relayer_fee_precision = some tf ∧
      o.target_relayer_fee = tf ∧
      o.to_native_token_amount = i.to_native_token_amount ∧
      o.recipient = i.recipient_address ∧
      o.bridged_amount = i.amount ∧
      i.to_native_token_amount + tf < i.amount := by
  simp only [send_wrapped_tokens_with_payload] at h
  split at h
  · exact Except.noConfusion h
  split at h
  · exact Except.noConfusion h
  split at h
  · exact Except.noConfusion h
  split at h
  · exact Except.noConfusion h
  split at h
  · exact Except.noConfusion h
  rename_i tf hfee
  split at h
  · exact Except.noConfusion h
  rename_i hineq
  cases h
  exact ⟨tf, hfee, rfl, rfl, rfl, rfl, not_not.mp hineq⟩

/-- C2: a send succeeds only if the normalized principal strictly exceeds
the sum of the normalized requested native-swap amount and the normalized
relayer fee, and a send reaching the funds check with that strict
inequality violated is rejected with `InsufficientFunds` — for both
`send_native_tokens_with_payload` and `send_wrapped_tokens_with_payload`
(the wrapped mint's decimals never exceed the bridge's 8-decimal cap, so
its raw funds check is the normalized one). -/
theorem sends_require_sufficient_funds (iN : SendNativeInput)
    (iW : SendWrappedInput) (oN oW : SendOutcome) (tfN tfW : Nat) :
    (checked_token_fee iN.relayer_fee iN.mint_decimals
        iN.registered_token.swap_rate iN.config.swap_rate_precision
        iN.config.relayer_fee_precision = some tfN →
      send_native_tokens_with_payload iN = .ok oN →
      normalize_amount iN.to_native_token_amount iN.mint_decimals
        + normalize_amount tfN iN.mint_decimals
        < normalize_amount iN.amount iN.mint_decimals) ∧
    (iN.config.paused = false →
      iN.registered_token.is_registered = true →
      CHAIN_ID_SOLANA < iN.recipient_chain →
      all_zero iN.recipient_address = false →
      truncate_amount iN.amount iN.mint_decimals ≠ 0 →
      (iN.to_native_token_amount = 0 ∨
        0 < normalize_amount iN.to_native_token_amount iN.mint_decimals) →
      checked_token_fee iN.relayer_fee iN.mint_decimals
        iN.registered_token.swap_rate iN.config.swap_rate_precision
        iN.config.relayer_fee_precision = some tfN →
      ¬(normalize_amount iN.to_native_token_amount iN.mint_decimals
          + normalize_amount tfN iN.mint_decimals
          < normalize_amount iN.amount iN.mint_decimals) →
      send_native_tokens_with_payload iN = .error .InsufficientFunds) ∧
    (wrappedMintDecimalsCap iW.wrapped_mint_decimals →
      checked_token_fee iW.relayer_fee iW.wrapped_mint_decimals
        iW.registered_token.swap_rate iW.config.swap_rate_precision
        iW.config.relayer_fee_precision = some tfW →
      send_wrapped_tokens_with_payload iW = .ok oW →
      normalize_amount iW.to_native_token_amount iW.wrapped_mint_decimals
        + normalize_amount tfW iW.wrapped_mint_decimals
        < normalize_amount iW.amount iW.wrapped_mint_decimals) ∧
    (iW.config.paused = false →
      iW.amount ≠ 0 →
      iW.registered_token.is_registered = true →
      CHAIN_ID_SOLANA < iW.recipient_chain →
      all_zero iW.recipient_address = false →
      checked_token_fee iW.relayer_fee iW.wrapped_mint_decimals
        iW.registered_token.swap_rate iW.config.swap_rate_precision
        iW.config.relayer_fee_precision = some tfW →
      ¬(iW.to_native_token_amount + tfW < iW.amount) →
      send_wrapped_tokens_with_payload iW = .error .InsufficientFunds) := by
  refine ⟨fun hfee hok => ?_,
    fun h1 h2 h3 h4 h5 h6 hfee hlt => ?_,
    fun hcap hfee hok => ?_,
    fun h1 h2 h3 h4 h5 hfee hlt => ?_⟩
  · obtain ⟨tf, hfee2, _, _, _, _, hineq⟩ := send_native_ok_spec hok
    rw [hfee] at hfee2
    cases hfee2
    exact hineq
  · unfold send_native_tokens_with_payload
    split <;> simp_all
  · obtain ⟨tf, hfee2, _, _, _, _, hineq⟩ := send_wrapped_ok_spec hok
    rw [hfee] at hfee2
    cases hfee2
    rw [normalize_amount_of_le hcap, normalize_amount_of_le hcap,
      normalize_amount_of_le hcap]
    exact hineq
  · unfold send_wrapped_tokens_with_payload
    split <;> simp_all

/-- A sample native-token send that succeeds: 9-decimal mint, principal
covering the relayer fee, no native-swap request. -/
def sampleSendNativeInput : SendNativeInput :=
  { config := sampleSenderConfig,
    registered_token := sampleToken,
    relayer_fee := 5000000,
    mint_decimals := 9,
    mint_is_native := false,
    amount := 1000000000,
    to_native_token_amount := 0,
    recipient_chain := 2,
    recipient_address := [1],
    wrap_native := false }

/-- The outcome of `sampleSendNativeInput`. -/
def sampleSendNativeOutcome : SendOutcome :=
  { target_relayer_fee := 33333333,
    to_native_token_amount := 0,
    recipient := [1],
    bridged_amount := 1000000000 }

/-- The sample native send with the principal lowered below the fee. -/
def lowSendNativeInput : SendNativeInput :=
  { sampleSendNativeInput with amount := 200000000 }

/-- A sample wrapped-token send that succeeds: 8-decimal wrapped mint,
principal covering the relayer fee. -/
def sampleSendWrappedInput : SendWrappedInput :=
  { config := sampleSenderConfig,
    registered_token := sampleToken,
    relayer_fee := 5000000,
    wrapped_mint_decimals := 8,
    amount := 400000000,
    to_native_token_amount := 0,
    recipient_chain := 2,
    recipient_address := [1] }

/-- The outcome of `sampleSendWrappedInput`. -/
def sampleSendWrappedOutcome : SendOutcome :=
  { target_relayer_fee := 33333333,
    to_native_token_amount := 0,
    recipient := [1],
    bridged_amount := 400000000 }

/-- The sample wrapped send with the principal lowered below the fee. -/
def lowSendWrappedInput : SendWrappedInput :=
  { sampleSendWrappedInput with amount := 10000000 }

/-- Witness for C2: the sample sends succeed and satisfy the normalized
strict funds inequality; with the principal lowered below the fee both
sends fail with `InsufficientFunds`. -/
theorem sends_require_sufficient_funds_witness :
    (normalize_amount sampleSendNativeInput.to_native_token_amount
        sampleSendNativeInput.mint_decimals
      + normalize_amount 333333333 sampleSendNativeInput.mint_decimals
      < normalize_amount sampleSendNativeInput.amount
          sampleSendNativeInput.mint_decimals) ∧
    send_native_tokens_with_payload lowSendNativeInput
      = .error .InsufficientFunds ∧
    (normalize_amount sampleSendWrappedInput.to_native_token_amount
        sampleSendWrappedInput.wrapped_mint_decimals
      + normalize_amount 33333333 sampleSendWrappedInput.wrapped_mint_decimals
      < normalize_amount sampleSendWrappedInput.amount
          sampleSendWrappedInput.wrapped_mint_decimals) ∧
    send_wrapped_tokens_with_payload lowSendWrappedInput
      = .error .InsufficientFunds :=
  ⟨(sends_require_sufficient_funds sampleSendNativeInput
      sampleSendWrappedInput sampleSendNativeOutcome
      sampleSendWrappedOutcome 333333333 33333333).1
      (by decide) (by decide),
   (sends_require_sufficient_funds lowSendNativeInput
      sampleSendWrappedInput sampleSendNativeOutcome
      sampleSendWrappedOutcome 333333333 33333333).2.1
      (by decide) (by decide) (by decide) (by decide) (by decide)
      (by decide) (by decide) (by decide),
   (sends_require_sufficient_funds sampleSendNativeInput
      sampleSendWrappedInput sampleSendNativeOutcome
      sampleSendWrappedOutcome 333333333 33333333).2.2.1
      (by unfold wrappedMintDecimalsCap; decide) (by decide) (by decide),
   (sends_require_sufficient_funds sampleSendNativeInput
      lowSendWrappedInput sampleSendNativeOutcome
      sampleSendWrappedOutcome 333333333 33333333).2.2.2
      (by decide) (by decide) (by decide) (by decide) (by decide)
      (by decide) (by decide)⟩

/-- C6: the `TransferWithRelay` payload fields emitted by a successful
send carry the 8-decimal-normalized relayer fee and native-swap amount
and the caller's recipient bytes, whatever the originating token's
decimal count — for `send_native_tokens_with_payload` by explicit
normalization, and for `send_wrapped_tokens_with_payload` because the
wrapped mint's decimals never exceed the bridge's 8-decimal cap, under
which normalization fixes the raw fields. -/
theorem payload_fields_normalized (iN : SendNativeInput)
    (iW : SendWrappedInput) (oN oW : SendOutcome) (tfN tfW : Nat) :
    (checked_token_fee iN.relayer_fee iN.mint_decimals
        iN.registered_token.swap_rate iN.config.swap_rate_precision
        iN.config.relayer_fee_precision = some tfN →
      send_native_tokens_with_payload iN = .ok oN →
      oN.target_relayer_fee = normalize_amount tfN iN.mint_decimals ∧
      oN.to_native_token_amount
        = normalize_amount iN.to_native_token_amount iN.mint_decimals ∧
      oN.recipient = iN.recipient_address) ∧
    (wrappedMintDecimalsCap iW.wrapped_mint_decimals →
      checked_token_fee iW.relayer_fee iW.wrapped_mint_decimals
        iW.registered_token.swap_rate iW.config.swap_rate_precision
        iW.config.relayer_fee_precision = some tfW →
      send_wrapped_tokens_with_payload iW = .ok oW →
      oW.target_relayer_fee
        = normalize_amount tfW iW.wrapped_mint_decimals ∧
      oW.to_native_token_amount
        = normalize_amount iW.to_native_token_amount
            iW.wrapped_mint_decimals ∧
      oW.recipient = iW.recipient_address) := by
  constructor
  · intro hfee hok
    obtain ⟨tf, hfee2, hf, ht, hr, _, _⟩ := send_native_ok_spec hok
    rw [hfee] at hfee2
    cases hfee2
    exact ⟨hf, ht, hr⟩
  · intro hcap hfee hok
    obtain ⟨tf, hfee2, hf, ht, hr, _, _⟩ := send_wrapped_ok_spec hok
    rw [hfee] at hfee2
    cases hfee2
    rw [normalize_amount_of_le hcap, normalize_amount_of_le hcap]
    exact ⟨hf, ht, hr⟩

/-- Witness for C6 on the sample sends: the emitted payload fields equal
the normalized fee, normalized swap request and recipient bytes. -/
theorem payload_fields_normalized_witness :
    (sampleSendNativeOutcome.target_relayer_fee
        = normalize_amount 333333333 sampleSendNativeInput.mint_decimals ∧
      sampleSendNativeOutcome.to_native_token_amount
        = normalize_amount sampleSendNativeInput.to_native_token_amount
            sampleSendNativeInput.mint_decimals ∧
      sampleSendNativeOutcome.recipient
        = sampleSendNativeInput.recipient_address) ∧
    (sampleSendWrappedOutcome.target_relayer_fee
        = normalize_amount 33333333
            sampleSendWrappedInput.wrapped_mint_decimals ∧
      sampleSendWrappedOutcome.to_native_token_amount
        = normalize_amount sampleSendWrappedInput.to_native_token_amount
            sampleSendWrappedInput.wrapped_mint_decimals ∧
      sampleSendWrappedOutcome.recipient
        = sampleSendWrappedInput.recipient_address) :=
  ⟨(payload_fields_normalized sampleSendNativeInput sampleSendWrappedInput
      sampleSendNativeOutcome sampleSendWrappedOutcome
      333333333 33333333).1 (by decide) (by decide),
   (payload_fields_normalized sampleSendNativeInput sampleSendWrappedInput
      sampleSendNativeOutcome sampleSendWrappedOutcome
      333333333 33333333).2
      (by unfold wrappedMintDecimalsCap; decide) (by decide) (by decide)⟩

/-! Inbound redemption: replay protection, self-redemption, pause
independence and the WSOL fee subtraction (claims C1, C4, C8, C10). -/

/-- The sample redemption input after its claim record has been written. -/
def spentRedeemInput : RedeemInput :=
  { sampleRedeemInput with claim_is_empty := false }

/-- The effects of redeeming `sampleRedeemInput` (a self-redemption of a
9-decimal token: principal 50000000 denormalizes to 500000000). -/
def sampleRedeemEffects : List RedeemEffect :=
  [.redeemToCustody 500000000, .tokenFromCustody 8 500000000, .closeTmp 7]

/-- C1: whenever the bridge's claim record for the attested message is
already non-empty, both redeem handlers fail with `AlreadyRedeemed` as
the first check — whatever every other account or payload field holds, so
before any fund movement — and a redemption that succeeded leaves the
claim record non-empty, so a second attempt for the same message fails
with `AlreadyRedeemed`: a redemption succeeds at most once. -/
theorem redeem_replay_protected (i j : RedeemInput)
    (effects : List RedeemEffect) (i2 : RedeemInput) :
    (i.claim_is_empty = false →
      redeem_native_transfer_with_payload i = .error .AlreadyRedeemed ∧
      redeem_wrapped_transfer_with_payload i = .error .AlreadyRedeemed) ∧
    (redeem_native_step j = .ok (effects, i2) →
      redeem_native_step i2 = .error .AlreadyRedeemed) ∧
    (redeem_wrapped_step j = .ok (effects, i2) →
      redeem_wrapped_step i2 = .error .AlreadyRedeemed) := by
  refine ⟨fun h => ⟨?_, ?_⟩, fun hok => ?_, fun hok => ?_⟩
  · unfold redeem_native_transfer_with_payload
    simp [h]
  · unfold redeem_wrapped_transfer_with_payload
    simp [h]
  · unfold redeem_native_step at hok ⊢
    cases hr : redeem_native_transfer_with_payload j with
    | error e =>
      rw [hr] at hok
      exact Except.noConfusion hok
    | ok effs =>
      rw [hr] at hok
      simp only [Except.ok.injEq, Prod.mk.injEq] at hok
      obtain ⟨-, hi2⟩ := hok
      subst hi2
      have hred : redeem_native_transfer_with_payload
          { j with claim_is_empty := false } = .error .AlreadyRedeemed := by
        unfold redeem_native_transfer_with_payload
        simp
      simp [hred]
  · unfold redeem_wrapped_step at hok ⊢
    cases hr : redeem_wrapped_transfer_with_payload j with
    | error e =>
      rw [hr] at hok
      exact Except.noConfusion hok
    | ok effs =>
      rw [hr] at hok
      simp only [Except.ok.injEq, Prod.mk.injEq] at hok
      obtain ⟨-, hi2⟩ := hok
      subst hi2
      have hred : redeem_wrapped_transfer_with_payload
          { j with claim_is_empty := false } = .error .AlreadyRedeemed := by
        unfold redeem_wrapped_transfer_with_payload
        simp
      simp [hred]

/-- Witness for C1: a redemption against an already-written claim record
fails with `AlreadyRedeemed`, and redeeming the sample input again after
its successful redemption fails the same way, for both handlers. -/
theorem redeem_replay_protected_witness :
    redeem_native_transfer_with_payload spentRedeemInput
      = .error .AlreadyRedeemed ∧
    redeem_native_step spentRedeemInput = .error .AlreadyRedeemed ∧
    redeem_wrapped_step spentRedeemInput = .error .AlreadyRedeemed :=
  ⟨((redeem_replay_protected spentRedeemInput sampleRedeemInput
      sampleRedeemEffects spentRedeemInput).1 (by decide)).1,
   (redeem_replay_protected spentRedeemInput sampleRedeemInput
      sampleRedeemEffects spentRedeemInput).2.1 (by decide),
   (redeem_replay_protected spentRedeemInput sampleRedeemInput
      sampleRedeemEffects spentRedeemInput).2.2 (by decide)⟩

/-- C4: in every successful self-redemption (payer equal to the encoded
recipient), the entire denormalized principal goes to the recipient and
there is no lamport transfer and no fee-recipient transfer: the WSOL
branch closes the whole custody balance to the payer-recipient with no
fee deduction, and the token branches of both handlers transfer the full
denormalized amount to the recipient's token account. -/
theorem self_redemption_full_principal (i : RedeemInput)
    (h1 : i.claim_is_empty = true)
    (h2 : i.registered_token.is_registered = true)
    (h3 : i.recipient = i.msg_recipient)
    (h4 : i.payer = i.recipient) :
    (i.mint_is_native = true →
      redeem_native_transfer_with_payload i
        = .ok [.redeemToCustody
                 (denormalize_amount i.vaa_amount i.mint_decimals),
               .closeTmp i.payer]) ∧
    (i.mint_is_native = false →
      redeem_native_transfer_with_payload i
        = .ok [.redeemToCustody
                 (denormalize_amount i.vaa_amount i.mint_decimals),
               .tokenFromCustody i.recipient_token_account
                 (denormalize_amount i.vaa_amount i.mint_decimals),
               .closeTmp i.payer]) ∧
    redeem_wrapped_transfer_with_payload i
      = .ok [.redeemToCustody
               (denormalize_amount i.vaa_amount i.mint_decimals),
             .tokenFromCustody i.recipient_token_account
               (denormalize_amount i.vaa_amount i.mint_decimals),
             .closeTmp i.payer] := by
  refine ⟨fun hn => ?_, fun hn => ?_, ?_⟩
  · unfold redeem_native_transfer_with_payload
    simp [h1, h2, h3, h4, hn]
  · unfold redeem_native_transfer_with_payload
    simp [h1, h2, h3, h4, hn]
  · unfold redeem_wrapped_transfer_with_payload
    simp [h1, h2, h3, h4]

/-- The sample redemption input with the native (WSOL) mint. -/
def sampleNativeRedeemInput : RedeemInput :=
  { sampleRedeemInput with mint_is_native := true }

/-- Witness for C4 on the sample self-redemptions: the full denormalized
principal (500000000) is forwarded with no fee or swap effect. -/
theorem self_redemption_full_principal_witness :
    redeem_native_transfer_with_payload sampleNativeRedeemInput
      = .ok [.redeemToCustody 500000000, .closeTmp 7] ∧
    redeem_native_transfer_with_payload sampleRedeemInput
      = .ok sampleRedeemEffects ∧
    redeem_wrapped_transfer_with_payload sampleRedeemInput
      = .ok sampleRedeemEffects := by
  have hnat := (self_redemption_full_principal sampleNativeRedeemInput
    (by decide) (by decide) (by decide) (by decide)).1 (by decide)
  have htok := self_redemption_full_principal sampleRedeemInput
    (by decide) (by decide) (by decide) (by decide)
  refine ⟨by rw [hnat]; decide, ?_, ?_⟩
  · rw [htok.2.1 (by decide)]
    decide
  · rw [htok.2.2]
    decide

/-- A redemption input whose deployment-wide sender config has the paused
flag set by `set_pause_for_transfers`. -/
def withPause (i : RedeemInput) (p : Bool) : RedeemInput :=
  { i with sender_config := set_pause_for_transfers i.sender_config p }

/-- A sender configuration with outbound transfers paused. -/
def pausedSenderConfig : SenderConfig :=
  set_pause_for_transfers sampleSenderConfig true

/-- The sample native send under the paused configuration. -/
def pausedSendNativeInput : SendNativeInput :=
  { sampleSendNativeInput with config := pausedSenderConfig }

/-- The sample wrapped send under the paused configuration. -/
def pausedSendWrappedInput : SendWrappedInput :=
  { sampleSendWrappedInput with config := pausedSenderConfig }

/-- C8: the paused flag written by `set_pause_for_transfers` gates only
outbound sends — both redeem handlers return an identical outcome (every
effect included) whatever the flag's state, while either send fails first
with `OutboundTransfersPaused` whenever the flag is set. -/
theorem pause_gates_only_outbound (i : RedeemInput) (p : Bool)
    (iN : SendNativeInput) (iW : SendWrappedInput) :
    redeem_native_transfer_with_payload (withPause i p)
      = redeem_native_transfer_with_payload i ∧
    redeem_wrapped_transfer_with_payload (withPause i p)
      = redeem_wrapped_transfer_with_payload i ∧
    (iN.config.paused = true →
      send_native_tokens_with_payload iN
        = .error .OutboundTransfersPaused) ∧
    (iW.config.paused = true →
      send_wrapped_tokens_with_payload iW
        = .error .OutboundTransfersPaused) := by
  refine ⟨rfl, rfl, fun h => ?_, fun h => ?_⟩
  · unfold send_native_tokens_with_payload
    simp [h]
  · unfold send_wrapped_tokens_with_payload
    simp [h]

/-- Witness for C8: pausing the sample deployment leaves the sample
redemption's outcome unchanged, while both sample sends fail with
`OutboundTransfersPaused`. -/
theorem pause_gates_only_outbound_witness :
    redeem_native_transfer_with_payload (withPause sampleRedeemInput true)
      = redeem_native_transfer_with_payload sampleRedeemInput ∧
    send_native_tokens_with_payload pausedSendNativeInput
      = .error .OutboundTransfersPaused ∧
    send_wrapped_tokens_with_payload pausedSendWrappedInput
      = .error .OutboundTransfersPaused :=
  ⟨(pause_gates_only_outbound sampleRedeemInput true pausedSendNativeInput
      pausedSendWrappedInput).1,
   (pause_gates_only_outbound sampleRedeemInput true pausedSendNativeInput
      pausedSendWrappedInput).2.2.1 (by decide),
   (pause_gates_only_outbound sampleRedeemInput true pausedSendNativeInput
      pausedSendWrappedInput).2.2.2 (by decide)⟩

/-- Rescaling to the native decimal count is monotone. -/
theorem denormalize_amount_mono {a b : Nat} (d : Nat) (h : a ≤ b) :
    denormalize_amount a d ≤ denormalize_amount b d := by
  unfold denormalize_amount
  split
  · exact Nat.mul_le_mul_right _ h
  · exact h

/-- C10: in the WSOL branch of `redeem_native_transfer_with_payload` with
a relaying payer, when the message's normalized relayer fee is strictly
below its normalized amount (as every successful send enforces), the
denormalized fee never exceeds the denormalized amount, so the unchecked
subtraction `amount - denormalized_relayer_fee` does not underflow and
the forwarded lamports are exactly that difference. -/
theorem wsol_relayed_fee_subtraction_safe (i : RedeemInput)
    (h1 : i.claim_is_empty = true)
    (h2 : i.registered_token.is_registered = true)
    (h3 : i.recipient = i.msg_recipient)
    (h4 : i.mint_is_native = true)
    (h5 : i.payer ≠ i.recipient)
    (h6 : i.target_relayer_fee < i.vaa_amount) :
    denormalize_amount i.target_relayer_fee i.mint_decimals
      ≤ denormalize_amount i.vaa_amount i.mint_decimals ∧
    denormalize_amount i.target_relayer_fee i.mint_decimals
      + (denormalize_amount i.vaa_amount i.mint_decimals
        - denormalize_amount i.target_relayer_fee i.mint_decimals)
      = denormalize_amount i.vaa_amount i.mint_decimals ∧
    redeem_native_transfer_with_payload i
      = .ok [.redeemToCustody
               (denormalize_amount i.vaa_amount i.mint_decimals),
             .closeTmp i.payer,
             .lamports i.payer i.recipient
               (denormalize_amount i.vaa_amount i.mint_decimals
                 - denormalize_amount i.target_relayer_fee
                     i.mint_decimals)] := by
  have hle := denormalize_amount_mono i.mint_decimals h6.le
  have h5m : ¬ i.payer = i.msg_recipient := fun hx => h5 (hx.trans h3.symm)
  refine ⟨hle, Nat.add_sub_cancel' hle, ?_⟩
  unfold redeem_native_transfer_with_payload
  simp [h1, h2, h3, h4, h5, h5m]

/-- The sample WSOL redemption performed by a relayer (payer 5, recipient
7) with fee 100000 against principal 50000000, both normalized. -/
def relayedWsolRedeemInput : RedeemInput :=
  { sampleRedeemInput with mint_is_native := true, payer := 5 }

/-- Witness for C10: denormalized fee 1000000 stays below the
denormalized principal 500000000 and the relayer forwards exactly
499000000 lamports. -/
theorem wsol_relayed_fee_subtraction_safe_witness :
    denormalize_amount relayedWsolRedeemInput.target_relayer_fee
        relayedWsolRedeemInput.mint_decimals
      ≤ denormalize_amount relayedWsolRedeemInput.vaa_amount
          relayedWsolRedeemInput.mint_decimals ∧
    redeem_native_transfer_with_payload relayedWsolRedeemInput
      = .ok [.redeemToCustody 500000000, .closeTmp 5,
             .lamports 5 7 499000000] := by
  have h := wsol_relayed_fee_subtraction_safe relayedWsolRedeemInput
    (by decide) (by decide) (by decide) (by decide) (by decide) (by decide)
  refine ⟨h.1, ?_⟩
  rw [h.2.2]
  decide

end TokenBridgeRelayer
